import Mathlib

/-!
Shallow embedding of `src/actor-model/reddit.go`: the `EngineActor`
coordinator of a Reddit-like platform.  Go maps become association lists,
Go `int` becomes `Int`, the per-message `Receive` switch becomes a total
Lean function on an explicit state, except the `ReplyToComment` branch,
which in Go dereferences `state.users[msg.UserID]` without an existence
check and can panic: that handler returns `Option`, `none` being the panic.
-/

/-- ANSI bold-green prefix used by every success reply in the source. -/
def ansiGreen : String := "\x1b[1;32m"

/-- ANSI bold-red prefix used by every failure reply in the source. -/
def ansiRed : String := "\x1b[1;31m"

/-- ANSI reset suffix closing every reply in the source. -/
def ansiReset : String := "\x1b[0m"

/-- Go struct `User`: id, username, ordered inbox of message lines. -/
structure User where
  id : Int
  username : String
  inbox : List String
deriving DecidableEq, Repr

/-- Go struct `Post`: id, author id, owning subreddit name, content,
ordered comment strings. -/
structure Post where
  id : Int
  userID : Int
  subreddit : String
  content : String
  comments : List String
deriving DecidableEq, Repr

/-- Go struct `Subreddit`: name, member set (`map[int]bool`, modelled as a
duplicate-free insertion-ordered list), ordered posts. -/
structure Subreddit where
  name : String
  users : List Int
  posts : List Post
deriving DecidableEq, Repr

/-- Go struct `EngineActor`: the whole mutable store.  The two Go maps are
modelled as association lists with unique keys, insertion at the back. -/
structure EngineActor where
  users : List (Int × User)
  subreddits : List (String × Subreddit)
  nextUserID : Int
  nextPostID : Int
deriving DecidableEq, Repr

/-- Insert/update in an association list: replace the value if the key is
present (Go map assignment), otherwise append the new binding. -/
def mapInsert {α β : Type} [BEq α] (m : List (α × β)) (key : α) (val : β) :
    List (α × β) :=
  if (m.lookup key).isSome then
    m.map (fun p => if p.1 == key then (key, val) else p)
  else m ++ [(key, val)]

/-- `map[int]bool` member-set insert (`subreddit.Users[id] = true`). -/
def setInsert (s : List Int) (x : Int) : List Int :=
  if s.contains x then s else s ++ [x]

/-- `map[int]bool` member-set delete (`delete(subreddit.Users, id)`). -/
def setErase (s : List Int) (x : Int) : List Int :=
  s.filter (fun y => y != x)

/-- `EngineActor.getUsername`: the stored username when the id is
registered, else the placeholder `User<id>`. -/
def getUsername (state : EngineActor) (userID : Int) : String :=
  match state.users.lookup userID with
  | some user => user.username
  | none => "User" ++ toString userID

/-- `RegisterUser` branch: increment `nextUserID`, create the user with an
empty inbox, store it under the new id. -/
def registerUser (state : EngineActor) (username : String) :
    EngineActor × String :=
  let nid := state.nextUserID + 1
  let user : User := { id := nid, username := username, inbox := [] }
  ({ state with nextUserID := nid, users := mapInsert state.users nid user },
   ansiGreen ++ "User '" ++ username ++ "' registered successfully with ID "
     ++ toString nid ++ "." ++ ansiReset)

/-- `CreateSubreddit` branch: refuse when the name is taken, else insert an
empty subreddit. -/
def createSubreddit (state : EngineActor) (name : String) :
    EngineActor × String :=
  if (state.subreddits.lookup name).isSome then
    (state, ansiGreen ++ "Subreddit '" ++ name ++ "' already exists."
      ++ ansiReset)
  else
    let subs2 := mapInsert state.subreddits name
      { name := name, users := [], posts := [] }
    ({ state with subreddits := subs2 },
     ansiGreen ++ "Subreddit '" ++ name ++ "' created successfully."
       ++ ansiReset)

/-- `JoinSubreddit` branch: add the user id to the member set when the
subreddit exists, else leave the store untouched. -/
def joinSubreddit (state : EngineActor) (userID : Int) (name : String) :
    EngineActor × String :=
  match state.subreddits.lookup name with
  | some sub =>
    let subs2 := mapInsert state.subreddits name
      { sub with users := setInsert sub.users userID }
    ({ state with subreddits := subs2 },
     ansiGreen ++ "User '" ++ getUsername state userID ++ "' joined subreddit '"
       ++ name ++ "'." ++ ansiReset)
  | none =>
    (state, ansiRed ++ "Subreddit '" ++ name ++ "' does not exist."
      ++ ansiReset)

/-- `LeaveSubreddit` branch: delete the user id from the member set when the
subreddit exists, else leave the store untouched. -/
def leaveSubreddit (state : EngineActor) (userID : Int) (name : String) :
    EngineActor × String :=
  match state.subreddits.lookup name with
  | some sub =>
    let subs2 := mapInsert state.subreddits name
      { sub with users := setErase sub.users userID }
    ({ state with subreddits := subs2 },
     ansiGreen ++ "User '" ++ getUsername state userID ++ "' left subreddit '"
       ++ name ++ "'." ++ ansiReset)
  | none =>
    (state, ansiRed ++ "Subreddit '" ++ name ++ "' does not exist."
      ++ ansiReset)

/-- `CreatePost` branch: `nextPostID` is incremented BEFORE the existence
check, so a failed create still consumes a post id. -/
def createPost (state : EngineActor) (userID : Int) (name content : String) :
    EngineActor × String :=
  let pid := state.nextPostID + 1
  let state1 := { state with nextPostID := pid }
  match state1.subreddits.lookup name with
  | some sub =>
    let post : Post := { id := pid, userID := userID, subreddit := name,
                         content := content, comments := [] }
    let subs2 := mapInsert state1.subreddits name
      { sub with posts := sub.posts ++ [post] }
    ({ state1 with subreddits := subs2 },
     ansiGreen ++ "User '" ++ getUsername state userID ++ "' posted in '"
       ++ name ++ "': " ++ content ++ ansiReset)
  | none =>
    (state1, ansiRed ++ "Subreddit '" ++ name ++ "' does not exist."
      ++ ansiReset)

/-- Scan a post list for the first post with the given id and apply `f` to
it; `none` when no post matches (the Go nested loop of `CommentOnPost`). -/
def editPostInPosts (posts : List Post) (postID : Int) (f : Post → Post) :
    Option (List Post) :=
  match posts with
  | [] => none
  | p :: rest =>
    if p.id == postID then some (f p :: rest)
    else (editPostInPosts rest postID f).map (fun l => p :: l)

/-- Scan all subreddits in order for the first post with the given id and
apply `f` to it in place; `none` when no post matches. -/
def editPostInSubs (subs : List (String × Subreddit)) (postID : Int)
    (f : Post → Post) : Option (List (String × Subreddit)) :=
  match subs with
  | [] => none
  | (nm, sub) :: rest =>
    match editPostInPosts sub.posts postID f with
    | some posts2 => some ((nm, { sub with posts := posts2 }) :: rest)
    | none => (editPostInSubs rest postID f).map (fun l => (nm, sub) :: l)

/-- `CommentOnPost` branch: append a formatted comment line to the first
post with the given id; the not-found reply reproduces the source's
`Sprintf` with a missing `%d` operand. -/
def commentOnPost (state : EngineActor) (postID userID : Int)
    (content : String) : EngineActor × String :=
  let line := "User '" ++ getUsername state userID ++ "': " ++ content
  match editPostInSubs state.subreddits postID
      (fun p => { p with comments := p.comments ++ [line] }) with
  | some subs2 =>
    ({ state with subreddits := subs2 },
     ansiGreen ++ "User '" ++ getUsername state userID ++ "' commented on post "
       ++ toString postID ++ ": " ++ content ++ ansiReset)
  | none =>
    (state, ansiRed ++ "Post ID '%!d(MISSING)' not found." ++ ansiReset)

/-- Hit condition of the `ReplyToComment` scan on one post: id matches and
the 1-based comment index is within range.  A post whose id matches but
whose index is out of range is skipped and the scan continues. -/
def replyHitPost (p : Post) (postID commentID : Int) : Bool :=
  p.id == postID && 1 ≤ commentID && commentID ≤ (p.comments.length : Int)

/-- Whether the `ReplyToComment` scan over a post list finds a hit. -/
def replyFindPosts (posts : List Post) (postID commentID : Int) : Bool :=
  match posts with
  | [] => false
  | p :: rest =>
    replyHitPost p postID commentID || replyFindPosts rest postID commentID

/-- Whether the `ReplyToComment` scan over all subreddits finds a hit. -/
def replyFindSubs (subs : List (String × Subreddit))
    (postID commentID : Int) : Bool :=
  match subs with
  | [] => false
  | (_, sub) :: rest =>
    replyFindPosts sub.posts postID commentID
      || replyFindSubs rest postID commentID

/-- In-place mutation of the `ReplyToComment` hit: append `line` to the
comment at index `commentID - 1` of the first hit post; identity when the
scan misses. -/
def replyEditPosts (posts : List Post) (postID commentID : Int)
    (line : String) : List Post :=
  match posts with
  | [] => []
  | p :: rest =>
    if replyHitPost p postID commentID then
      let idx := (commentID - 1).toNat
      { p with comments := p.comments.set idx (p.comments.getD idx "" ++ line) }
        :: rest
    else p :: replyEditPosts rest postID commentID line

/-- `replyEditPosts` lifted over the subreddit list, first hit only. -/
def replyEditSubs (subs : List (String × Subreddit)) (postID commentID : Int)
    (line : String) : List (String × Subreddit) :=
  match subs with
  | [] => []
  | (nm, sub) :: rest =>
    if replyFindPosts sub.posts postID commentID then
      (nm, { sub with posts := replyEditPosts sub.posts postID commentID line })
        :: rest
    else (nm, sub) :: replyEditSubs rest postID commentID line

/-- `ReplyToComment` branch.  At a hit the source reads
`state.users[msg.UserID].Username` with no existence check: a nil `*User`
is dereferenced when the acting user is unregistered, modelled by `none`
(panic).  When the scan misses, the user is never looked up. -/
def replyToComment (state : EngineActor) (postID commentID userID : Int)
    (content : String) : Option (EngineActor × String) :=
  if replyFindSubs state.subreddits postID commentID then
    match state.users.lookup userID with
    | none => none
    | some user =>
      let line := "\nReply by '" ++ user.username ++ "': " ++ content
      let subs2 := replyEditSubs state.subreddits postID commentID line
      some ({ state with subreddits := subs2 },
            ansiGreen ++ "User '" ++ user.username ++ "' replied to comment "
              ++ toString commentID ++ " on post " ++ toString postID ++ ": "
              ++ content ++ ansiReset)
  else
    some (state, ansiRed ++ "Comment or Post not found." ++ ansiReset)

/-- `LikePost` branch: no existence check, no stored counter, reply only. -/
def likePost (state : EngineActor) (postID userID : Int) :
    EngineActor × String :=
  (state, ansiGreen ++ "User '" ++ getUsername state userID ++ "' liked post "
    ++ toString postID ++ "." ++ ansiReset)

/-- `DislikePost` branch: no existence check, no stored counter. -/
def dislikePost (state : EngineActor) (postID userID : Int) :
    EngineActor × String :=
  (state, ansiGreen ++ "User '" ++ getUsername state userID
    ++ "' disliked post " ++ toString postID ++ "." ++ ansiReset)

/-- `SendMessage` branch: append a formatted line to the receiver's inbox
when the receiver exists; the sender id is never checked. -/
def sendMessage (state : EngineActor) (senderID receiverID : Int)
    (content : String) : EngineActor × String :=
  match state.users.lookup receiverID with
  | some receiver =>
    let line := "Message from '" ++ getUsername state senderID ++ "': "
      ++ content
    let users2 := mapInsert state.users receiverID
      { receiver with inbox := receiver.inbox ++ [line] }
    ({ state with users := users2 },
     ansiGreen ++ "Message sent to User '" ++ receiver.username ++ "'."
       ++ ansiReset)
  | none =>
    (state, ansiRed ++ "User with ID " ++ toString receiverID
      ++ " does not exist." ++ ansiReset)

/-- `ReplyToMessage` branch: identical to `SendMessage` up to the line and
reply wording. -/
def replyToMessage (state : EngineActor) (senderID receiverID : Int)
    (content : String) : EngineActor × String :=
  match state.users.lookup receiverID with
  | some receiver =>
    let line := "Reply from '" ++ getUsername state senderID ++ "': "
      ++ content
    let users2 := mapInsert state.users receiverID
      { receiver with inbox := receiver.inbox ++ [line] }
    ({ state with users := users2 },
     ansiGreen ++ "Reply sent to User '" ++ receiver.username ++ "'."
       ++ ansiReset)
  | none =>
    (state, ansiRed ++ "User with ID " ++ toString receiverID
      ++ " does not exist." ++ ansiReset)

/-- `ViewInbox` branch: read-only; newline-joined inbox, or the empty-inbox
reply, or the missing-user reply. -/
def viewInbox (state : EngineActor) (userID : Int) : EngineActor × String :=
  match state.users.lookup userID with
  | some user =>
    if user.inbox.length == 0 then
      (state, ansiGreen ++ "Inbox is empty." ++ ansiReset)
    else
      (state, ansiGreen ++ "Inbox:\n" ++ String.intercalate "\n" user.inbox
        ++ ansiReset)
  | none =>
    (state, ansiRed ++ "User with ID " ++ toString userID
      ++ " does not exist." ++ ansiReset)

/-- The twelve request shapes of the coordinator (reply channels dropped:
the reply is the returned string). -/
inductive Msg where
  | registerUser (username : String)
  | createSubreddit (userID : Int) (subreddit : String)
  | joinSubreddit (userID : Int) (subreddit : String)
  | leaveSubreddit (userID : Int) (subreddit : String)
  | createPost (userID : Int) (subreddit : String) (content : String)
  | commentOnPost (postID userID : Int) (content : String)
  | replyToComment (postID commentID userID : Int) (content : String)
  | likePost (postID userID : Int)
  | dislikePost (postID userID : Int)
  | sendMessage (senderID receiverID : Int) (content : String)
  | replyToMessage (senderID receiverID : Int) (content : String)
  | viewInbox (userID : Int)
deriving DecidableEq, Repr

/-- `EngineActor.Receive`: dispatch on the message type; `none` is the one
reachable panic (nil `*User` in `ReplyToComment`). -/
def receive (state : EngineActor) (msg : Msg) :
    Option (EngineActor × String) :=
  match msg with
  | .registerUser username => some (registerUser state username)
  | .createSubreddit _ name => some (createSubreddit state name)
  | .joinSubreddit uid name => some (joinSubreddit state uid name)
  | .leaveSubreddit uid name => some (leaveSubreddit state uid name)
  | .createPost uid name content => some (createPost state uid name content)
  | .commentOnPost pid uid content =>
    some (commentOnPost state pid uid content)
  | .replyToComment pid cid uid content =>
    replyToComment state pid cid uid content
  | .likePost pid uid => some (likePost state pid uid)
  | .dislikePost pid uid => some (dislikePost state pid uid)
  | .sendMessage sid rid content => some (sendMessage state sid rid content)
  | .replyToMessage sid rid content =>
    some (replyToMessage state sid rid content)
  | .viewInbox uid => some (viewInbox state uid)

/-- The store as `main` builds it: empty maps, both counters zero. -/
def initialEngine : EngineActor :=
  { users := [], subreddits := [], nextUserID := 0, nextPostID := 0 }

/-- Join/leave operations on one (user, community) pair, for membership
sequencing properties. -/
inductive MemOp where
  | join
  | leave
deriving DecidableEq, Repr

/-- Apply one join/leave operation and keep the resulting store. -/
def applyMemOp (st : EngineActor) (uid : Int) (name : String) (op : MemOp) :
    EngineActor :=
  match op with
  | .join => (joinSubreddit st uid name).1
  | .leave => (leaveSubreddit st uid name).1

/-- Apply a sequence of join/leave operations left to right. -/
def applyMemOps (st : EngineActor) (uid : Int) (name : String)
    (ops : List MemOp) : EngineActor :=
  ops.foldl (fun s op => applyMemOp s uid name op) st

/-- Observed membership status: the user id is in the community's member
set (false when the community does not exist). -/
def isMember (st : EngineActor) (name : String) (uid : Int) : Bool :=
  match st.subreddits.lookup name with
  | some sub => sub.users.contains uid
  | none => false

/-- The §8 scenario up to the comment: register alice and bob, create
community "golang", user 1 posts "hello", user 2 comments "nice". -/
def scenarioAfterComment : EngineActor :=
  (commentOnPost
    (createPost
      (createSubreddit
        (registerUser (registerUser initialEngine "alice").1 "bob").1
        "golang").1
      1 "golang" "hello").1
    1 2 "nice").1

/-- A small concrete store for witnesses: one user "alice" (id 1), one
community "go" holding one post (id 1) with one comment. -/
def demoStore : EngineActor :=
  { users := [(1, ⟨1, "alice", []⟩)],
    subreddits := [("go", ⟨"go", [], [⟨1, 1, "go", "hello", ["c1"]⟩]⟩)],
    nextUserID := 1, nextPostID := 1 }

/-- A concrete store with NO registered users but an existing post with one
comment, for the unregistered-user branches. -/
def orphanStore : EngineActor :=
  { users := [],
    subreddits := [("go", ⟨"go", [], [⟨1, 1, "go", "hello", ["c1"]⟩]⟩)],
    nextUserID := 0, nextPostID := 1 }

/-- A second concrete store for the membership-sequencing witness: "go"
exists and user 1 is already a member. -/
def memberStore : EngineActor :=
  { users := [],
    subreddits := [("go", ⟨"go", [1], []⟩)],
    nextUserID := 0, nextPostID := 0 }

/-- `demoStore` after an unregistered user 2 messages alice: alice's inbox
holds one line. -/
def msgStore : EngineActor := (sendMessage demoStore 2 1 "hi").1

theorem lookup_map_replace {α β : Type} [BEq α] [LawfulBEq α]
    (m : List (α × β)) (k : α) (v : β) (h : (m.lookup k).isSome = true) :
    (m.map (fun p => if p.1 == k then (k, v) else p)).lookup k = some v := by
  induction m with
  | nil => simp [List.lookup] at h
  | cons hd tl ih =>
    obtain ⟨a, b⟩ := hd
    by_cases hak : a = k
    · subst hak
      simp [List.lookup_cons]
    · have hak2 : (a == k) = false := by simp [hak]
      have hka : (k == a) = false := by simp [Ne.symm hak]
      simp only [List.lookup_cons, hka] at h
      simp only [List.map_cons, hak2, Bool.false_eq_true, if_false,
        List.lookup_cons, hka]
      exact ih h

theorem lookup_append_new {α β : Type} [BEq α] [LawfulBEq α]
    (m : List (α × β)) (k : α) (v : β) (h : m.lookup k = none) :
    (m ++ [(k, v)]).lookup k = some v := by
  induction m with
  | nil => simp [List.lookup]
  | cons hd tl ih =>
    obtain ⟨a, b⟩ := hd
    by_cases hka : k = a
    · subst hka; simp [List.lookup_cons] at h
    · have hka2 : (k == a) = false := by simp [hka]
      simp only [List.cons_append, List.lookup_cons, hka2] at h ⊢
      exact ih h

theorem mapInsert_lookup {α β : Type} [BEq α] [LawfulBEq α]
    (m : List (α × β)) (k : α) (v : β) :
    (mapInsert m k v).lookup k = some v := by
  unfold mapInsert
  by_cases h : (m.lookup k).isSome = true
  · simp only [h, if_true]
    exact lookup_map_replace m k v h
  · simp only [h, if_false]
    exact lookup_append_new m k v (by
      cases hm : m.lookup k with
      | none => rfl
      | some w => rw [hm] at h; simp at h)

/-- C3: for every store in which a community with the given name already
exists, Create community leaves the whole store (hence that community's
member set and posts) unchanged and returns the "already exists" reply. -/
theorem createSubreddit_existing_noop (st : EngineActor) (uid : Int)
    (name : String) (h : (st.subreddits.lookup name).isSome = true) :
    receive st (.createSubreddit uid name) =
      some (st, ansiGreen ++ "Subreddit '" ++ name ++ "' already exists."
        ++ ansiReset) := by
  simp [receive, createSubreddit, h]

/-- Witness for C3 at a concrete store containing community "go". -/
theorem createSubreddit_existing_noop_witness :
    receive demoStore (.createSubreddit 1 "go") =
      some (demoStore, ansiGreen ++ "Subreddit '" ++ "go" ++ "' already exists."
        ++ ansiReset) :=
  createSubreddit_existing_noop demoStore 1 "go" (by decide)

/-- C4: joining a community whose name is not present leaves the entire
store unchanged and returns the "does not exist" reply. -/
theorem joinSubreddit_missing_noop (st : EngineActor) (uid : Int)
    (name : String) (h : st.subreddits.lookup name = none) :
    receive st (.joinSubreddit uid name) =
      some (st, ansiRed ++ "Subreddit '" ++ name ++ "' does not exist."
        ++ ansiReset) := by
  simp [receive, joinSubreddit, h]

/-- Witness for C4: joining the absent community "rust". -/
theorem joinSubreddit_missing_noop_witness :
    receive demoStore (.joinSubreddit 1 "rust") =
      some (demoStore, ansiRed ++ "Subreddit '" ++ "rust" ++ "' does not exist."
        ++ ansiReset) :=
  joinSubreddit_missing_noop demoStore 1 "rust" (by decide)

/-- C8: Like post and Dislike post leave the entire store unchanged for
every store, post id and user id — no existence check, no stored counter —
and return only a confirmation reply. -/
theorem likeDislike_noop (st : EngineActor) (pid uid : Int) :
    receive st (.likePost pid uid) =
      some (st, ansiGreen ++ "User '" ++ getUsername st uid ++ "' liked post "
        ++ toString pid ++ "." ++ ansiReset)
  ∧ receive st (.dislikePost pid uid) =
      some (st, ansiGreen ++ "User '" ++ getUsername st uid
        ++ "' disliked post " ++ toString pid ++ "." ++ ansiReset) :=
  ⟨rfl, rfl⟩

/-- C7: Register user always succeeds: for every store it creates a user
with an empty inbox under the next sequential id; ids start at 1 on the
initial store; registering twice with the same name yields two distinct,
strictly increasing ids. -/
theorem registerUser_sequential (st : EngineActor) (name : String) :
    receive st (.registerUser name) =
      some ({ st with
                nextUserID := st.nextUserID + 1,
                users := mapInsert st.users (st.nextUserID + 1) ⟨st.nextUserID + 1, name, []⟩ },
            ansiGreen ++ "User '" ++ name ++ "' registered successfully with ID "
              ++ toString (st.nextUserID + 1) ++ "." ++ ansiReset)
  ∧ (registerUser st name).1.nextUserID = st.nextUserID + 1
  ∧ (registerUser (registerUser st name).1 name).1.nextUserID = st.nextUserID + 1 + 1
  ∧ st.nextUserID + 1 < st.nextUserID + 1 + 1
  ∧ (registerUser initialEngine name).1.nextUserID = 1 :=
  ⟨rfl, rfl, rfl, by omega, rfl⟩

/-- C9: Reply to comment performs its user lookup with no existence check:
whenever the scan finds a post with the given id and a comment index in
range but the acting user id is unregistered, the absent-user branch of the
lookup is reached (a nil-pointer dereference in the source, `none` here),
not the `User<id>` placeholder every other operation uses. -/
theorem replyToComment_unregistered_panics (st : EngineActor)
    (pid cid uid : Int) (content : String)
    (hfind : replyFindSubs st.subreddits pid cid = true)
    (huser : st.users.lookup uid = none) :
    receive st (.replyToComment pid cid uid content) = none := by
  simp [receive, replyToComment, hfind, huser]

/-- Witness for C9: post 1 with one comment exists, user 7 does not. -/
theorem replyToComment_unregistered_panics_witness :
    replyFindSubs orphanStore.subreddits 1 1 = true
  ∧ orphanStore.users.lookup 7 = none
  ∧ receive orphanStore (.replyToComment 1 1 7 "hi") = none :=
  ⟨by decide, by decide,
   replyToComment_unregistered_panics orphanStore 1 1 7 "hi" (by decide) (by decide)⟩

/-- C1: Create post for a community name not in the store advances
`nextPostID` by one, returns the "does not exist" reply, and changes
nothing else; a subsequent successful Create post in an existing community
then receives id `nextPostID + 2` — the id `nextPostID + 1` is a gap. -/
theorem createPost_missing_consumesID (st : EngineActor) (uid uid2 : Int)
    (name name2 content content2 : String) (sub : Subreddit)
    (h : st.subreddits.lookup name = none)
    (h2 : st.subreddits.lookup name2 = some sub) :
    receive st (.createPost uid name content) =
      some ({ st with nextPostID := st.nextPostID + 1 },
            ansiRed ++ "Subreddit '" ++ name ++ "' does not exist." ++ ansiReset)
  ∧ receive { st with nextPostID := st.nextPostID + 1 } (.createPost uid2 name2 content2) =
      some ({ st with
                nextPostID := st.nextPostID + 1 + 1,
                subreddits := mapInsert st.subreddits name2 { sub with posts := sub.posts ++ [⟨st.nextPostID + 1 + 1, uid2, name2, content2, []⟩] } },
            ansiGreen ++ "User '" ++ getUsername st uid2 ++ "' posted in '" ++ name2 ++ "': " ++ content2 ++ ansiReset) := by
  constructor
  · simp [receive, createPost, h]
  · simp [receive, createPost, h2, getUsername]

/-- Witness for C1: on `demoStore`, creating a post in absent "rust"
consumes post id 2; the next post in existing "go" gets id 3. -/
theorem createPost_missing_consumesID_witness :
    receive demoStore (.createPost 1 "rust" "x") =
      some ({ demoStore with nextPostID := demoStore.nextPostID + 1 },
            ansiRed ++ "Subreddit '" ++ "rust" ++ "' does not exist." ++ ansiReset)
  ∧ receive { demoStore with nextPostID := demoStore.nextPostID + 1 } (.createPost 1 "go" "y") =
      some ({ demoStore with
                nextPostID := demoStore.nextPostID + 1 + 1,
                subreddits := mapInsert demoStore.subreddits "go" { (⟨"go", [], [⟨1, 1, "go", "hello", ["c1"]⟩]⟩ : Subreddit) with posts := [⟨1, 1, "go", "hello", ["c1"]⟩] ++ [⟨demoStore.nextPostID + 1 + 1, 1, "go", "y", []⟩] } },
            ansiGreen ++ "User '" ++ getUsername demoStore 1 ++ "' posted in '" ++ "go" ++ "': " ++ "y" ++ ansiReset) :=
  createPost_missing_consumesID demoStore 1 1 "rust" "go" "x" "y"
    ⟨"go", [], [⟨1, 1, "go", "hello", ["c1"]⟩]⟩ (by decide) (by decide)

/-- C6: viewing an existing user's inbox does not mutate the store and
returns all inbox lines newline-joined (the empty-inbox reply when there
are none); messages are delivered by appending at the end of the inbox, so
the joined lines appear in the order they were sent. -/
theorem viewInbox_ordered (st : EngineActor) (uid sid : Int) (user : User)
    (content : String) (h : st.users.lookup uid = some user) :
    receive st (.viewInbox uid) =
      some (st,
        if user.inbox.length == 0 then ansiGreen ++ "Inbox is empty." ++ ansiReset
        else ansiGreen ++ "Inbox:\n" ++ String.intercalate "\n" user.inbox ++ ansiReset)
  ∧ (sendMessage st sid uid content).1.users.lookup uid =
      some { user with inbox := user.inbox ++ ["Message from '" ++ getUsername st sid ++ "': " ++ content] } := by
  constructor
  · simp only [receive, viewInbox, h]
    split <;> simp_all
  · simp [sendMessage, h, mapInsert_lookup]

/-- Witness for C6: alice (id 1) with a one-line inbox in `msgStore`. -/
theorem viewInbox_ordered_witness :
    receive msgStore (.viewInbox 1) =
      some (msgStore,
        if (["Message from 'User2': hi"] : List String).length == 0 then ansiGreen ++ "Inbox is empty." ++ ansiReset
        else ansiGreen ++ "Inbox:\n" ++ String.intercalate "\n" ["Message from 'User2': hi"] ++ ansiReset)
  ∧ (sendMessage msgStore 2 1 "yo").1.users.lookup 1 =
      some { (⟨1, "alice", ["Message from 'User2': hi"]⟩ : User) with inbox := ["Message from 'User2': hi"] ++ ["Message from '" ++ getUsername msgStore 2 ++ "': " ++ "yo"] } :=
  viewInbox_ordered msgStore 1 2 ⟨1, "alice", ["Message from 'User2': hi"]⟩ "yo" (by decide)

/-- C10: except Reply to comment, no operation requires the acting user to
be registered: with an unregistered acting id, Join, Leave, Create post,
Comment on post, Like/Dislike and Send/Reply message (sender side) all
succeed exactly as for a registered user, substituting the placeholder
`User<id>` in the stored text and the reply. -/
theorem unregistered_placeholder (st : EngineActor) (uid rid pid : Int)
    (name content : String) (sub : Subreddit) (receiver : User)
    (subs2 : List (String × Subreddit))
    (huser : st.users.lookup uid = none)
    (hsub : st.subreddits.lookup name = some sub)
    (hrecv : st.users.lookup rid = some receiver)
    (hpost : editPostInSubs st.subreddits pid
      (fun p => { p with comments := p.comments ++ ["User '" ++ ("User" ++ toString uid) ++ "': " ++ content] }) = some subs2) :
    getUsername st uid = "User" ++ toString uid
  ∧ receive st (.joinSubreddit uid name) =
      some ({ st with subreddits := mapInsert st.subreddits name { sub with users := setInsert sub.users uid } },
            ansiGreen ++ "User '" ++ ("User" ++ toString uid) ++ "' joined subreddit '" ++ name ++ "'." ++ ansiReset)
  ∧ receive st (.leaveSubreddit uid name) =
      some ({ st with subreddits := mapInsert st.subreddits name { sub with users := setErase sub.users uid } },
            ansiGreen ++ "User '" ++ ("User" ++ toString uid) ++ "' left subreddit '" ++ name ++ "'." ++ ansiReset)
  ∧ receive st (.createPost uid name content) =
      some ({ st with
                nextPostID := st.nextPostID + 1,
                subreddits := mapInsert st.subreddits name { sub with posts := sub.posts ++ [⟨st.nextPostID + 1, uid, name, content, []⟩] } },
            ansiGreen ++ "User '" ++ ("User" ++ toString uid) ++ "' posted in '" ++ name ++ "': " ++ content ++ ansiReset)
  ∧ receive st (.commentOnPost pid uid content) =
      some ({ st with subreddits := subs2 },
            ansiGreen ++ "User '" ++ ("User" ++ toString uid) ++ "' commented on post " ++ toString pid ++ ": " ++ content ++ ansiReset)
  ∧ receive st (.likePost pid uid) =
      some (st, ansiGreen ++ "User '" ++ ("User" ++ toString uid) ++ "' liked post " ++ toString pid ++ "." ++ ansiReset)
  ∧ receive st (.dislikePost pid uid) =
      some (st, ansiGreen ++ "User '" ++ ("User" ++ toString uid) ++ "' disliked post " ++ toString pid ++ "." ++ ansiReset)
  ∧ receive st (.sendMessage uid rid content) =
      some ({ st with users := mapInsert st.users rid { receiver with inbox := receiver.inbox ++ ["Message from '" ++ ("User" ++ toString uid) ++ "': " ++ content] } },
            ansiGreen ++ "Message sent to User '" ++ receiver.username ++ "'." ++ ansiReset)
  ∧ receive st (.replyToMessage uid rid content) =
      some ({ st with users := mapInsert st.users rid { receiver with inbox := receiver.inbox ++ ["Reply from '" ++ ("User" ++ toString uid) ++ "': " ++ content] } },
            ansiGreen ++ "Reply sent to User '" ++ receiver.username ++ "'." ++ ansiReset) := by
  refine ⟨?_, ?_, ?_, ?_, ?_, ?_, ?_, ?_, ?_⟩
  · simp [getUsername, huser]
  · simp [receive, joinSubreddit, getUsername, huser, hsub]
  · simp [receive, leaveSubreddit, getUsername, huser, hsub]
  · simp [receive, createPost, getUsername, huser, hsub]
  · simp [receive, commentOnPost, getUsername, huser, hpost]
  · simp [receive, likePost, getUsername, huser]
  · simp [receive, dislikePost, getUsername, huser]
  · simp [receive, sendMessage, getUsername, huser, hrecv]
  · simp [receive, replyToMessage, getUsername, huser, hrecv]

/-- Witness for C10: unregistered user 42 acting on `demoStore` (community
"go", post 1, registered receiver alice). -/
theorem unregistered_placeholder_witness :
    getUsername demoStore 42 = "User" ++ toString (42 : Int)
  ∧ receive demoStore (.joinSubreddit 42 "go") =
      some ({ demoStore with subreddits := mapInsert demoStore.subreddits "go" { (⟨"go", [], [⟨1, 1, "go", "hello", ["c1"]⟩]⟩ : Subreddit) with users := setInsert [] 42 } },
            ansiGreen ++ "User '" ++ ("User" ++ toString (42 : Int)) ++ "' joined subreddit '" ++ "go" ++ "'." ++ ansiReset)
  ∧ receive demoStore (.leaveSubreddit 42 "go") =
      some ({ demoStore with subreddits := mapInsert demoStore.subreddits "go" { (⟨"go", [], [⟨1, 1, "go", "hello", ["c1"]⟩]⟩ : Subreddit) with users := setErase [] 42 } },
            ansiGreen ++ "User '" ++ ("User" ++ toString (42 : Int)) ++ "' left subreddit '" ++ "go" ++ "'." ++ ansiReset)
  ∧ receive demoStore (.createPost 42 "go" "hi") =
      some ({ demoStore with
                nextPostID := demoStore.nextPostID + 1,
                subreddits := mapInsert demoStore.subreddits "go" { (⟨"go", [], [⟨1, 1, "go", "hello", ["c1"]⟩]⟩ : Subreddit) with posts := [⟨1, 1, "go", "hello", ["c1"]⟩] ++ [⟨demoStore.nextPostID + 1, 42, "go", "hi", []⟩] } },
            ansiGreen ++ "User '" ++ ("User" ++ toString (42 : Int)) ++ "' posted in '" ++ "go" ++ "': " ++ "hi" ++ ansiReset)
  ∧ receive demoStore (.commentOnPost 1 42 "hi") =
      some ({ demoStore with subreddits := [("go", ⟨"go", [], [⟨1, 1, "go", "hello", ["c1", "User 'User42': hi"]⟩]⟩)] },
            ansiGreen ++ "User '" ++ ("User" ++ toString (42 : Int)) ++ "' commented on post " ++ toString (1 : Int) ++ ": " ++ "hi" ++ ansiReset)
  ∧ receive demoStore (.likePost 1 42) =
      some (demoStore, ansiGreen ++ "User '" ++ ("User" ++ toString (42 : Int)) ++ "' liked post " ++ toString (1 : Int) ++ "." ++ ansiReset)
  ∧ receive demoStore (.dislikePost 1 42) =
      some (demoStore, ansiGreen ++ "User '" ++ ("User" ++ toString (42 : Int)) ++ "' disliked post " ++ toString (1 : Int) ++ "." ++ ansiReset)
  ∧ receive demoStore (.sendMessage 42 1 "hi") =
      some ({ demoStore with users := mapInsert demoStore.users 1 { (⟨1, "alice", []⟩ : User) with inbox := [] ++ ["Message from '" ++ ("User" ++ toString (42 : Int)) ++ "': " ++ "hi"] } },
            ansiGreen ++ "Message sent to User '" ++ "alice" ++ "'." ++ ansiReset)
  ∧ receive demoStore (.replyToMessage 42 1 "hi") =
      some ({ demoStore with users := mapInsert demoStore.users 1 { (⟨1, "alice", []⟩ : User) with inbox := [] ++ ["Reply from '" ++ ("User" ++ toString (42 : Int)) ++ "': " ++ "hi"] } },
            ansiGreen ++ "Reply sent to User '" ++ "alice" ++ "'." ++ ansiReset) :=
  unregistered_placeholder demoStore 42 1 1 "go" "hi"
    ⟨"go", [], [⟨1, 1, "go", "hello", ["c1"]⟩]⟩ ⟨1, "alice", []⟩
    [("go", ⟨"go", [], [⟨1, 1, "go", "hello", ["c1", "User 'User42': hi"]⟩]⟩)]
    (by decide) (by decide) (by decide) (by decide)

theorem setInsert_contains (s : List Int) (x : Int) :
    (setInsert s x).contains x = true := by
  by_cases h : s.contains x <;> simp_all [setInsert]

theorem setErase_contains (s : List Int) (x : Int) :
    (setErase s x).contains x = false := by
  simp [setErase, List.elem_eq_mem, List.mem_filter]

theorem setInsert_mem (s : List Int) (x : Int) : x ∈ setInsert s x := by
  have h := setInsert_contains s x
  simpa [List.elem_eq_mem] using h

theorem setErase_not_mem (s : List Int) (x : Int) : x ∉ setErase s x := by
  have h := setErase_contains s x
  simpa [List.elem_eq_mem] using h

theorem applyMemOp_lookup (st : EngineActor) (uid : Int) (name : String)
    (op : MemOp) (sub : Subreddit) (h : st.subreddits.lookup name = some sub) :
    (applyMemOp st uid name op).subreddits.lookup name =
      some (match op with
            | MemOp.join => { sub with users := setInsert sub.users uid }
            | MemOp.leave => { sub with users := setErase sub.users uid }) := by
  cases op <;>
    simp [applyMemOp, joinSubreddit, leaveSubreddit, h, mapInsert_lookup]

theorem isMember_applyMemOp (st : EngineActor) (uid : Int) (name : String)
    (op : MemOp) (h : (st.subreddits.lookup name).isSome = true) :
    isMember (applyMemOp st uid name op) name uid = (op == MemOp.join) := by
  obtain ⟨sub, hsub⟩ := Option.isSome_iff_exists.mp h
  cases op
  · simp [isMember, applyMemOp_lookup st uid name MemOp.join sub hsub,
      setInsert_mem]
  · simp [isMember, applyMemOp_lookup st uid name MemOp.leave sub hsub,
      setErase_not_mem]

theorem applyMemOp_preserves (st : EngineActor) (uid : Int) (name : String)
    (op : MemOp) (h : (st.subreddits.lookup name).isSome = true) :
    ((applyMemOp st uid name op).subreddits.lookup name).isSome = true := by
  obtain ⟨sub, hsub⟩ := Option.isSome_iff_exists.mp h
  rw [applyMemOp_lookup st uid name op sub hsub]
  rfl

theorem applyMemOps_getLast (uid : Int) (name : String) :
    ∀ (ops : List MemOp) (op : MemOp) (st : EngineActor),
      (st.subreddits.lookup name).isSome = true → ops.getLast? = some op →
      isMember (applyMemOps st uid name ops) name uid = (op == MemOp.join) := by
  intro ops
  induction ops with
  | nil => intro op st h hl; simp at hl
  | cons a l ih =>
    intro op st h hl
    cases l with
    | nil =>
      have ha : a = op := by simpa using hl
      subst ha
      exact isMember_applyMemOp st uid name a h
    | cons b m =>
      have h2 := applyMemOp_preserves st uid name a h
      have hl2 : (b :: m).getLast? = some op := by
        simpa [List.getLast?_cons_cons] using hl
      exact ih op (applyMemOp st uid name a) h2 hl2

/-- C5: for an existing community and a non-empty join/leave sequence by
one user, the final membership status equals applying only the last
operation to any starting state in which the community exists: join and
leave are idempotent and each overrides whatever preceded it. -/
theorem joinLeave_lastOpWins (st st2 : EngineActor) (uid : Int)
    (name : String) (ops : List MemOp) (op : MemOp)
    (h1 : (st.subreddits.lookup name).isSome = true)
    (h2 : (st2.subreddits.lookup name).isSome = true)
    (hlast : ops.getLast? = some op) :
    isMember (applyMemOps st uid name ops) name uid
      = isMember (applyMemOp st2 uid name op) name uid := by
  rw [applyMemOps_getLast uid name ops op st h1 hlast,
    isMember_applyMemOp st2 uid name op h2]

/-- Witness for C5: the sequence join-leave-join on `demoStore` vs the
single last join on `memberStore`. -/
theorem joinLeave_lastOpWins_witness :
    isMember (applyMemOps demoStore 1 "go" [MemOp.join, MemOp.leave, MemOp.join]) "go" 1
      = isMember (applyMemOp memberStore 1 "go" MemOp.join) "go" 1 :=
  joinLeave_lastOpWins demoStore memberStore 1 "go"
    [MemOp.join, MemOp.leave, MemOp.join] MemOp.join
    (by decide) (by decide) (by decide)

theorem replyEditPosts_firstHit (pid cid : Int) (line : String) :
    ∀ (pre suf : List Post) (p : Post),
      (∀ q ∈ pre, replyHitPost q pid cid = false) →
      replyHitPost p pid cid = true →
      replyEditPosts (pre ++ p :: suf) pid cid line =
        pre ++ { p with comments := p.comments.set (cid - 1).toNat (p.comments.getD (cid - 1).toNat "" ++ line) } :: suf := by
  intro pre
  induction pre with
  | nil =>
    intro suf p _ hp
    simp [replyEditPosts, hp]
  | cons q rest ih =>
    intro suf p hpre hp
    have hq : replyHitPost q pid cid = false := hpre q (List.mem_cons_self q rest)
    have hrest : ∀ r ∈ rest, replyHitPost r pid cid = false :=
      fun r hr => hpre r (List.mem_cons_of_mem q hr)
    simp [replyEditPosts, hq, ih suf p hrest hp]

theorem replyEditSubs_firstHit (pid cid : Int) (line : String) :
    ∀ (pre suf : List (String × Subreddit)) (nm : String) (sub : Subreddit),
      (∀ q ∈ pre, replyFindPosts q.2.posts pid cid = false) →
      replyFindPosts sub.posts pid cid = true →
      replyEditSubs (pre ++ (nm, sub) :: suf) pid cid line =
        pre ++ (nm, { sub with posts := replyEditPosts sub.posts pid cid line }) :: suf := by
  intro pre
  induction pre with
  | nil =>
    intro suf nm sub _ hs
    simp [replyEditSubs, hs]
  | cons q rest ih =>
    intro suf nm sub hpre hs
    obtain ⟨qn, qs⟩ := q
    have hq : replyFindPosts qs.posts pid cid = false :=
      hpre (qn, qs) (List.mem_cons_self (qn, qs) rest)
    have hrest : ∀ r ∈ rest, replyFindPosts r.2.posts pid cid = false :=
      fun r hr => hpre r (List.mem_cons_of_mem (qn, qs) hr)
    simp [replyEditSubs, hq, ih suf nm sub hrest hs]

/-- C2: for every post and valid 1-based comment index, Reply to comment
replaces the comment string at that index by the prior string with the
reply line appended, at the same position and with the comment count
unchanged; in the §8 scenario the comment of post 1 becomes
`User 'bob': nice\nReply by 'bob': thanks`. -/
theorem replyToComment_appendsReply :
    (∀ (st : EngineActor) (user : User) (pid cid uid : Int) (content : String),
      st.users.lookup uid = some user →
      replyFindSubs st.subreddits pid cid = true →
      receive st (.replyToComment pid cid uid content) =
        some ({ st with subreddits := replyEditSubs st.subreddits pid cid ("\nReply by '" ++ user.username ++ "': " ++ content) },
              ansiGreen ++ "User '" ++ user.username ++ "' replied to comment " ++ toString cid ++ " on post " ++ toString pid ++ ": " ++ content ++ ansiReset))
  ∧ (∀ (pre suf : List (String × Subreddit)) (nm : String) (sub : Subreddit) (pid cid : Int) (line : String),
      (∀ q ∈ pre, replyFindPosts q.2.posts pid cid = false) →
      replyFindPosts sub.posts pid cid = true →
      replyEditSubs (pre ++ (nm, sub) :: suf) pid cid line =
        pre ++ (nm, { sub with posts := replyEditPosts sub.posts pid cid line }) :: suf)
  ∧ (∀ (pre suf : List Post) (p : Post) (pid cid : Int) (line : String),
      (∀ q ∈ pre, replyHitPost q pid cid = false) →
      replyHitPost p pid cid = true →
      replyEditPosts (pre ++ p :: suf) pid cid line =
        pre ++ { p with comments := p.comments.set (cid - 1).toNat (p.comments.getD (cid - 1).toNat "" ++ line) } :: suf
      ∧ (p.comments.set (cid - 1).toNat (p.comments.getD (cid - 1).toNat "" ++ line)).length = p.comments.length)
  ∧ (replyToComment scenarioAfterComment 1 1 2 "thanks").map
      (fun r => (r.1.subreddits.lookup "golang").map (fun sub => sub.posts.map Post.comments))
      = some (some [["User 'bob': nice\nReply by 'bob': thanks"]]) := by
  refine ⟨?_, ?_, ?_, ?_⟩
  · intro st user pid cid uid content huser hfind
    simp [receive, replyToComment, hfind, huser]
  · intro pre suf nm sub pid cid line hpre hhit
    exact replyEditSubs_firstHit pid cid line pre suf nm sub hpre hhit
  · intro pre suf p pid cid line hpre hhit
    exact ⟨replyEditPosts_firstHit pid cid line pre suf p hpre hhit, by simp⟩
  · decide

/-- Witness for C2: each part instantiated at the §8 scenario data. -/
theorem replyToComment_appendsReply_witness :
    receive scenarioAfterComment (.replyToComment 1 1 2 "thanks") =
      some ({ scenarioAfterComment with subreddits := replyEditSubs scenarioAfterComment.subreddits 1 1 ("\nReply by '" ++ (⟨2, "bob", []⟩ : User).username ++ "': " ++ "thanks") },
            ansiGreen ++ "User '" ++ (⟨2, "bob", []⟩ : User).username ++ "' replied to comment " ++ toString (1 : Int) ++ " on post " ++ toString (1 : Int) ++ ": " ++ "thanks" ++ ansiReset)
  ∧ replyEditSubs ([] ++ ("go", (⟨"go", [], [⟨1, 1, "go", "hello", ["c1"]⟩]⟩ : Subreddit)) :: []) 1 1 "L" =
      [] ++ ("go", { (⟨"go", [], [⟨1, 1, "go", "hello", ["c1"]⟩]⟩ : Subreddit) with posts := replyEditPosts (⟨"go", [], [⟨1, 1, "go", "hello", ["c1"]⟩]⟩ : Subreddit).posts 1 1 "L" }) :: []
  ∧ (replyEditPosts ([] ++ (⟨1, 1, "go", "hello", ["c1"]⟩ : Post) :: []) 1 1 "L" =
      [] ++ { (⟨1, 1, "go", "hello", ["c1"]⟩ : Post) with comments := (⟨1, 1, "go", "hello", ["c1"]⟩ : Post).comments.set ((1 : Int) - 1).toNat ((⟨1, 1, "go", "hello", ["c1"]⟩ : Post).comments.getD ((1 : Int) - 1).toNat "" ++ "L") } :: []
      ∧ ((⟨1, 1, "go", "hello", ["c1"]⟩ : Post).comments.set ((1 : Int) - 1).toNat ((⟨1, 1, "go", "hello", ["c1"]⟩ : Post).comments.getD ((1 : Int) - 1).toNat "" ++ "L")).length = (⟨1, 1, "go", "hello", ["c1"]⟩ : Post).comments.length)
  ∧ (replyToComment scenarioAfterComment 1 1 2 "thanks").map
      (fun r => (r.1.subreddits.lookup "golang").map (fun sub => sub.posts.map Post.comments))
      = some (some [["User 'bob': nice\nReply by 'bob': thanks"]]) :=
  ⟨replyToComment_appendsReply.1 scenarioAfterComment ⟨2, "bob", []⟩ 1 1 2 "thanks" (by decide) (by decide),
   replyToComment_appendsReply.2.1 [] [] "go" ⟨"go", [], [⟨1, 1, "go", "hello", ["c1"]⟩]⟩ 1 1 "L" (by simp) (by decide),
   replyToComment_appendsReply.2.2.1 [] [] ⟨1, 1, "go", "hello", ["c1"]⟩ 1 1 "L" (by simp) (by decide),
   replyToComment_appendsReply.2.2.2⟩
